import Mathlib

/- Verification of the conversation-management and retry logic of the chat
client in `src/chat.py`.

The Python source is shallowly embedded. The persisted conversation history
and the request envelope are values of type `List Message`. A remote
completion client is a function from the call index and the envelope to a
call result, so that one embedding covers every possible sequence of remote
outcomes. Process exit, the uncaught `IndexError` from `list.pop(0)` on an
empty list, and the `time.sleep` calls are recorded explicitly in a trace. -/

/-- A single conversational turn, the dict `{"role": r, "content": c}`. -/
structure Message where
  role : String
  content : String
  deriving DecidableEq, Repr

/-- One character-list run of the check behind the Python operator
`needle in haystack`: does `needle` occur at the head of the list? -/
def startsWithList : List Char → List Char → Bool
  | [], _ => true
  | _ :: _, [] => false
  | p :: ps, c :: cs => p == c && startsWithList ps cs

/-- Helper for `containsSubstring`: does `needle` occur anywhere in the
list? -/
def containsAux (needle : List Char) : List Char → Bool
  | [] => needle.isEmpty
  | c :: cs => startsWithList needle (c :: cs) || containsAux needle cs

/-- Python substring containment `needle in hay`, used by `handle_error` in
`src/chat.py` line 115 to classify the error text. -/
def containsSubstring (needle hay : String) : Bool :=
  containsAux needle.data hay.data

/-- One possible outcome of a single remote call in
`do_chatbot_conversation_exchange`: either a parsed success (the generated
text and the server-reported total token count) or a raised error carrying
the text of `str(error)`. -/
inductive CallResult where
  | ok (text : String) (total_tokens : Nat)
  | err (message : String)
  deriving DecidableEq, Repr

/-- `handle_error(error, conversation)` from `src/chat.py` lines 113-119.
It returns the pair `(should_continue, conversation)`. The Python code
calls `conversation.pop(0)` when the error text contains
"maximum context length"; on an empty list that call raises an
`IndexError`, modelled here by `none`. -/
def handle_error (error : String) (conversation : List Message) :
    Option (Bool × List Message) :=
  if containsSubstring "maximum context length" error then
    match conversation with
    | [] => none
    | _ :: rest => some (true, rest)
  else
    some (false, conversation)

/-- The final outcome of `do_chatbot_conversation_exchange`: a normal
return, the `exit(1)` after the retry loop is exhausted, or the uncaught
`IndexError` raised by `conversation.pop(0)` on an empty envelope inside
the exception handler. -/
inductive ExchangeOutcome where
  | returned (text : String) (total_tokens : Nat)
  | exitFatal
  | popFailure
  deriving DecidableEq, Repr

/-- Observable trace of one run of `do_chatbot_conversation_exchange`:
the outcome, the envelope passed to the remote client at each call in
chronological order, and the durations passed to `time.sleep` in
chronological order. -/
structure ExchangeTrace where
  outcome : ExchangeOutcome
  calls : List (List Message)
  sleeps : List Nat
  deriving DecidableEq, Repr

/-- `max_retry` from `src/chat.py` line 123. -/
def max_retry : Nat := 7

/-- The `for retry in range(max_retry)` loop of
`do_chatbot_conversation_exchange` (`src/chat.py` lines 129-156), with the
remaining number of loop iterations as `fuel` and the current loop index as
`retry`. Each iteration makes exactly one remote call; on a failure
classified by `handle_error` as a context-length error the loop continues
immediately with the popped envelope, otherwise it records the sleep of
`2 ** retry * 5` seconds and continues with the envelope unchanged. When
the iterations are exhausted the code reaches `exit(1)`. -/
def exchangeLoop (client : Nat → List Message → CallResult) :
    Nat → Nat → List Message → ExchangeTrace
  | 0, _, _ => ⟨.exitFatal, [], []⟩
  | fuel + 1, retry, conversation =>
    match client retry conversation with
    | .ok text total_tokens => ⟨.returned text total_tokens, [conversation], []⟩
    | .err message =>
      match handle_error message conversation with
      | none => ⟨.popFailure, [conversation], []⟩
      | some (true, conv2) =>
        let t := exchangeLoop client fuel (retry + 1) conv2
        ⟨t.outcome, conversation :: t.calls, t.sleeps⟩
      | some (false, conv2) =>
        let t := exchangeLoop client fuel (retry + 1) conv2
        ⟨t.outcome, conversation :: t.calls, 2 ^ retry * 5 :: t.sleeps⟩

/-- `do_chatbot_conversation_exchange(conversation)` from `src/chat.py`
lines 122-158, abstracted over the remote client. -/
def do_chatbot_conversation_exchange (client : Nat → List Message → CallResult)
    (conversation : List Message) : ExchangeTrace :=
  exchangeLoop client max_retry 0 conversation

/-- An error message that satisfies the context-length classification of
`handle_error`. -/
def ctxMessage : String := "maximum context length exceeded"

/-- A fake remote client that fails with a context-length error on the
first `n` calls and then succeeds with text "ok" and 42 total tokens. -/
def contextThenSuccess (n : Nat) : Nat → List Message → CallResult :=
  fun i _ => if i < n then .err ctxMessage else .ok "ok" 42

/-- A fake remote client that always fails with a non-context-length
error. -/
def alwaysFail : Nat → List Message → CallResult :=
  fun _ _ => .err "rate limit reached"

/-- A fake remote client that always fails with a context-length error. -/
def alwaysContextFail : Nat → List Message → CallResult :=
  fun _ _ => .err ctxMessage

/-- `MODEL_MAX_TOKENS` from `src/chat.py` line 17, the soft token budget. -/
def MODEL_MAX_TOKENS : Nat := 7500

/-- The post-exchange trimming policy of the main loop (`src/chat.py` lines
234-235): `if tokens > app_state.MODEL_MAX_TOKENS: app_state.ALL_MESSAGES.pop(0)`.
At this point the history always holds at least the user message appended
just before the exchange, so `pop(0)` is exactly `List.tail`. -/
def trim_if_over_budget (total_tokens budget : Nat) (history : List Message) :
    List Message :=
  if total_tokens > budget then history.tail else history

/-- The Python call `template.replace("<<CODE>>", repl)` from `src/chat.py`
line 226, specialised to its fixed eight-character placeholder: every
non-overlapping occurrence of `<<CODE>>` is replaced left to right. -/
def substCodeToken (repl : List Char) : List Char → List Char
  | '<' :: '<' :: 'C' :: 'O' :: 'D' :: 'E' :: '>' :: '>' :: rest =>
    repl ++ substCodeToken repl rest
  | c :: rest => c :: substCodeToken repl rest
  | [] => []

/-- Envelope construction from `src/chat.py` lines 226-229: the system text
is the template with `<<CODE>>` replaced by the scratchpad contents, and
the conversation sent is a fresh list holding a copy of the history plus
one trailing system message. The Python code builds `conversation` as a new
list (`conversation = list(); conversation += app_state.ALL_MESSAGES`), so
the history object itself is never touched. -/
def composeEnvelope (history : List Message) (templateText scratchText : String) :
    List Message :=
  let system_message := String.mk (substCodeToken scratchText.data templateText.data)
  history ++ [⟨"system", system_message⟩]

/-- The update of `app_state.ALL_MESSAGES` after a successful exchange
(`src/chat.py` lines 234-237): maybe trim the oldest message, then append
the assistant reply. Its argument `h1` is the history including the user
message appended on line 225. -/
def updateHistory (h1 : List Message) (replyText : String) (total_tokens : Nat) :
    List Message :=
  trim_if_over_budget total_tokens MODEL_MAX_TOKENS h1 ++ [⟨"assistant", replyText⟩]

/-- `multi_line_input()` from `src/chat.py` lines 164-172, with the console
modelled by the list of lines the user will type: collect lines until the
first literal "END" and join them with newlines. -/
def multi_line_input (lines : List String) : String :=
  String.intercalate "\n" (lines.takeWhile (fun line => line != "END"))

/-- Python whitespace test behind `str.strip()` with no argument. -/
def isPythonSpace (c : Char) : Bool :=
  c == ' ' || c == '\t' || c == '\n' || c == '\r' || c == '\x0b' || c == '\x0c'

/-- Python `s.strip(chars)`: remove every leading and every trailing
character that is a member of the character set `chars`. -/
def pyStrip (s : String) (chars : String) : String :=
  String.mk
    (((s.data.dropWhile (fun c => chars.data.contains c)).reverse.dropWhile
      (fun c => chars.data.contains c)).reverse)

/-- Python `s.strip()` with no argument: remove leading and trailing
whitespace. -/
def pyStripWs (s : String) : String :=
  String.mk
    (((s.data.dropWhile isPythonSpace).reverse.dropWhile isPythonSpace).reverse)

/-- The three ways `get_user_input` can leave the prompt: `exit(0)` on the
sentinel, a scratchpad rewrite (the function returns `None`), or a normal
text submission. -/
inductive InputAction where
  | exitZero
  | scratchpadUpdated (saved : String)
  | submit (text : String)
  deriving DecidableEq, Repr

/-- `get_user_input()` from `src/chat.py` lines 175-186, with the console
modelled by the prompt answer `text` and the lines `extraLines` available
to a subsequent `multi_line_input()` call. The scratchpad file receives
`text.strip("END").strip()` of the joined multi-line input. -/
def get_user_input (text : String) (extraLines : List String) : InputAction :=
  if text == "END" then .exitZero
  else if text == "SCRATCHPAD" || text == "M" then
    .scratchpadUpdated (pyStripWs (pyStrip (multi_line_input extraLines) "END"))
  else .submit text

/-- Outcome of one iteration of the main loop (`src/chat.py` lines
216-238): process exit with a code, a scratchpad file rewrite with the
saved content (no completion request that turn), a skipped empty
submission, a completed exchange together with the new persisted history,
or an exception escaping the exchange. -/
inductive TurnOutcome where
  | exitCode (code : Nat)
  | scratchpadWrite (content : String)
  | skip
  | exchanged (trace : ExchangeTrace) (newHistory : List Message)
  | raised
  deriving DecidableEq, Repr

/-- One iteration of the `while True` loop of `main` (`src/chat.py` lines
216-238): read input, handle sentinels, append the user message, build the
envelope, run the exchange, then trim and append the assistant reply. -/
def mainTurn (client : Nat → List Message → CallResult) (history : List Message)
    (templateText scratchText : String) (inputText : String)
    (extraLines : List String) : TurnOutcome :=
  match get_user_input inputText extraLines with
  | .exitZero => .exitCode 0
  | .scratchpadUpdated saved => .scratchpadWrite saved
  | .submit text =>
    if text == "" then .skip
    else
      let h1 := history ++ [⟨"user", text⟩]
      let conversation := composeEnvelope h1 templateText scratchText
      let tr := do_chatbot_conversation_exchange client conversation
      match tr.outcome with
      | .returned rtext tokens => .exchanged tr (updateHistory h1 rtext tokens)
      | .exitFatal => .exitCode 1
      | .popFailure => .raised

/-- Concrete three-message history used by witnesses. -/
def threeMessages : List Message :=
  [⟨"user", "m1"⟩, ⟨"user", "m2"⟩, ⟨"user", "m3"⟩]

/-- Concrete seven-message history used by witnesses and counterexamples. -/
def sevenMessages : List Message :=
  [⟨"user", "m1"⟩, ⟨"user", "m2"⟩, ⟨"user", "m3"⟩, ⟨"user", "m4"⟩,
   ⟨"user", "m5"⟩, ⟨"user", "m6"⟩, ⟨"user", "m7"⟩]

/- Helper lemmas shared by the claim theorems. -/

lemma containsSubstring_ctxMessage :
    containsSubstring "maximum context length" ctxMessage = true := by decide

lemma exchangeLoop_context_then_success (N : Nat) (k : Nat) :
    ∀ (r fuel : Nat) (conv : List Message), r + k = N → k < fuel → k ≤ conv.length →
      exchangeLoop (contextThenSuccess N) fuel r conv =
        ⟨.returned "ok" 42, (List.range (k + 1)).map (fun j => conv.drop j), []⟩ := by
  induction k with
  | zero =>
    intro r fuel conv hr hf hl
    obtain ⟨f, rfl⟩ : ∃ f, fuel = f + 1 := ⟨fuel - 1, by omega⟩
    subst hr
    have h1 : List.range 1 = [0] := rfl
    simp [exchangeLoop, contextThenSuccess, h1]
  | succ k ih =>
    intro r fuel conv hr hf hl
    obtain ⟨f, rfl⟩ : ∃ f, fuel = f + 1 := ⟨fuel - 1, by omega⟩
    cases conv with
    | nil => simp at hl
    | cons c cs =>
      have hrN : r < N := by omega
      have hih := ih (r + 1) f cs (by omega) (by omega) (by simpa using hl)
      simp only [exchangeLoop, contextThenSuccess, hrN, if_pos, handle_error,
        containsSubstring_ctxMessage, hih, ExchangeTrace.mk.injEq, true_and, and_true]
      simp [List.range_succ_eq_map, List.map_map, Function.comp, List.drop_succ_cons]

lemma exchangeLoop_no_popFailure (client : Nat → List Message → CallResult) :
    ∀ (fuel r : Nat) (conv : List Message), fuel ≤ conv.length →
      (exchangeLoop client fuel r conv).outcome ≠ ExchangeOutcome.popFailure := by
  intro fuel
  induction fuel with
  | zero => intro r conv h; simp [exchangeLoop]
  | succ f ih =>
    intro r conv h
    rw [exchangeLoop]
    cases hc : client r conv with
    | ok text tokens => simp
    | err msg =>
      by_cases hctx : containsSubstring "maximum context length" msg = true
      · cases conv with
        | nil => simp at h
        | cons c cs =>
          simp only [handle_error, hctx, if_true]
          exact ih (r + 1) cs (by simpa using h)
      · simp only [handle_error, hctx, if_false, Bool.false_eq_true]
        exact ih (r + 1) conv (by omega)

lemma handle_error_true_inv (e : String) (conv conv2 : List Message)
    (h : handle_error e conv = some (true, conv2)) : ∃ m, conv = m :: conv2 := by
  by_cases hctx : containsSubstring "maximum context length" e = true
  · cases conv with
    | nil => simp [handle_error, hctx] at h
    | cons c cs =>
      simp only [handle_error, hctx, if_true, Option.some.injEq, Prod.mk.injEq,
        true_and] at h
      exact ⟨c, by rw [h]⟩
  · simp [handle_error, hctx] at h

lemma handle_error_false_inv (e : String) (conv conv2 : List Message)
    (h : handle_error e conv = some (false, conv2)) : conv2 = conv := by
  by_cases hctx : containsSubstring "maximum context length" e = true
  · cases conv with
    | nil => simp [handle_error, hctx] at h
    | cons c cs => simp [handle_error, hctx] at h
  · simp only [handle_error, hctx, if_false, Bool.false_eq_true, Option.some.injEq,
      Prod.mk.injEq, true_and] at h
    exact h.symm

lemma exchangeLoop_calls_are_drops (client : Nat → List Message → CallResult) :
    ∀ (fuel r : Nat) (conv c : List Message),
      c ∈ (exchangeLoop client fuel r conv).calls → ∃ k, c = conv.drop k := by
  intro fuel
  induction fuel with
  | zero => intro r conv c hc; simp [exchangeLoop] at hc
  | succ f ih =>
    intro r conv c hc
    cases hcall : client r conv with
    | ok text tokens =>
      simp only [exchangeLoop, hcall, List.mem_singleton] at hc
      exact ⟨0, by simp [hc]⟩
    | err msg =>
      cases hhe : handle_error msg conv with
      | none =>
        simp only [exchangeLoop, hcall, hhe, List.mem_singleton] at hc
        exact ⟨0, by simp [hc]⟩
      | some p =>
        obtain ⟨b, conv2⟩ := p
        cases b with
        | true =>
          simp only [exchangeLoop, hcall, hhe, List.mem_cons] at hc
          rcases hc with rfl | hc
          · exact ⟨0, by simp⟩
          · obtain ⟨m, rfl⟩ := handle_error_true_inv msg conv conv2 hhe
            obtain ⟨k, rfl⟩ := ih (r + 1) conv2 c hc
            exact ⟨k + 1, by simp [List.drop_succ_cons]⟩
        | false =>
          simp only [exchangeLoop, hcall, hhe, List.mem_cons] at hc
          rcases hc with rfl | hc
          · exact ⟨0, by simp⟩
          · obtain rfl := handle_error_false_inv msg conv conv2 hhe
            exact ih (r + 1) conv2 c hc

/-- C1 counterexample: the claim holds for every N only if context-length
failures consume no retry slot, but in the code the `for retry in
range(7)` loop index advances on every iteration, including the
`continue` taken after a context-length failure. A client that fails
seven times with a context-length error and would succeed on the eighth
call exhausts the loop: the exchange reaches `exit(1)` instead of
returning a success, even though it never slept. -/
theorem context_retry_slot_counterexample :
    (do_chatbot_conversation_exchange (contextThenSuccess 7) sevenMessages).outcome =
        ExchangeOutcome.exitFatal ∧
    (do_chatbot_conversation_exchange (contextThenSuccess 7) sevenMessages).sleeps = [] := by
  decide

/-- C1 (amended): a failure whose error text indicates a context-length
violation removes exactly one message from the front of the envelope being
retried and causes an immediate re-attempt without any sleep, but each such
re-attempt does consume one of the seven loop iterations. Consequently, for
every N at most 6 (and an envelope with at least N messages), a completion
client that fails N times with a context-length error and then succeeds
yields a successful result with no sleep requested, after exactly N + 1
calls, and the envelope passed to the successful call has had its first N
messages removed relative to the original. -/
theorem context_length_retries_drop_envelope (N : Nat) (conv : List Message)
    (hN : N ≤ 6) (hlen : N ≤ conv.length) :
    (do_chatbot_conversation_exchange (contextThenSuccess N) conv).outcome =
        .returned "ok" 42 ∧
    (do_chatbot_conversation_exchange (contextThenSuccess N) conv).sleeps = [] ∧
    (do_chatbot_conversation_exchange (contextThenSuccess N) conv).calls.length = N + 1 ∧
    (do_chatbot_conversation_exchange (contextThenSuccess N) conv).calls.getLast? =
      some (conv.drop N) := by
  have h := exchangeLoop_context_then_success N N 0 max_retry conv (by omega)
    (by simp [max_retry]; omega) hlen
  rw [do_chatbot_conversation_exchange, h]
  refine ⟨rfl, rfl, by simp, ?_⟩
  rw [List.range_succ, List.map_append]
  simp

/-- C1 witness: the amended claim evaluated at N = 2 on a concrete
three-message envelope. -/
theorem context_length_retries_drop_envelope_witness :
    (2 ≤ 6 ∧ 2 ≤ threeMessages.length) ∧
    ((do_chatbot_conversation_exchange (contextThenSuccess 2) threeMessages).outcome =
        .returned "ok" 42 ∧
     (do_chatbot_conversation_exchange (contextThenSuccess 2) threeMessages).sleeps = [] ∧
     (do_chatbot_conversation_exchange (contextThenSuccess 2) threeMessages).calls.length =
        2 + 1 ∧
     (do_chatbot_conversation_exchange (contextThenSuccess 2) threeMessages).calls.getLast? =
       some (threeMessages.drop 2)) :=
  ⟨⟨by decide, by decide⟩,
    context_length_retries_drop_envelope 2 threeMessages (by decide) (by decide)⟩

/-- C2 counterexample: the contract does not hold for every sequence of
remote-call failures. On a two-message envelope, three consecutive
context-length failures pop both messages and then call
`conversation.pop(0)` on an empty list inside the exception handler; the
resulting `IndexError` propagates out of the exchange operation. -/
theorem exchange_pop_raises_counterexample :
    (do_chatbot_conversation_exchange alwaysContextFail
        [⟨"user", "hi"⟩, ⟨"system", "s"⟩]).outcome = ExchangeOutcome.popFailure := by
  decide

/-- C2 (amended): whenever the envelope holds at least `max_retry` (7)
messages, no exception can propagate out of the exchange operation for any
sequence of remote-call outcomes: the caller either receives a returned
result or the process terminates via `exit(1)`. The proviso is forced by
the counterexample, where context-length pops empty a shorter envelope and
the `pop(0)` inside the handler raises. -/
theorem exchange_never_raises_given_long_envelope
    (client : Nat → List Message → CallResult) (conv : List Message)
    (h : max_retry ≤ conv.length) :
    (∃ text tokens,
        (do_chatbot_conversation_exchange client conv).outcome =
          ExchangeOutcome.returned text tokens) ∨
    (do_chatbot_conversation_exchange client conv).outcome =
      ExchangeOutcome.exitFatal := by
  have hnp := exchangeLoop_no_popFailure client max_retry 0 conv h
  rw [do_chatbot_conversation_exchange]
  cases ho : (exchangeLoop client max_retry 0 conv).outcome with
  | returned t k => exact Or.inl ⟨t, k, rfl⟩
  | exitFatal => exact Or.inr rfl
  | popFailure => exact absurd ho hnp

/-- C2 witness: the amended claim evaluated at the always-failing client on
a concrete seven-message envelope. -/
theorem exchange_never_raises_witness :
    max_retry ≤ sevenMessages.length ∧
    ((∃ text tokens,
        (do_chatbot_conversation_exchange alwaysFail sevenMessages).outcome =
          ExchangeOutcome.returned text tokens) ∨
     (do_chatbot_conversation_exchange alwaysFail sevenMessages).outcome =
       ExchangeOutcome.exitFatal) :=
  ⟨by decide, exchange_never_raises_given_long_envelope alwaysFail sevenMessages (by decide)⟩

/-- C3: when the remote client fails on every attempt with a
non-context-length error, the exchange makes exactly 7 attempts (each with
the unchanged envelope), requests sleeps of exactly
[5, 10, 20, 40, 80, 160, 320] seconds in that order (5 * 2 ^ attempt for
attempts 0..6), and then reaches the fatal `exit(1)` state. -/
theorem backoff_schedule_and_fatal (conv : List Message) :
    do_chatbot_conversation_exchange alwaysFail conv =
      ⟨ExchangeOutcome.exitFatal, List.replicate max_retry conv,
        [5, 10, 20, 40, 80, 160, 320]⟩ := by
  rfl

/-- C4: for every non-empty history, the post-exchange trim removes exactly
the single oldest element (index 0) when the server-reported total token
usage strictly exceeds the budget, and removes nothing otherwise. -/
theorem trim_if_over_budget_spec (t b : Nat) (h : List Message) (hne : h ≠ []) :
    (t > b → ∃ m rest, h = m :: rest ∧ trim_if_over_budget t b h = rest) ∧
    (¬ t > b → trim_if_over_budget t b h = h) := by
  cases h with
  | nil => exact absurd rfl hne
  | cons m rest =>
    constructor
    · intro hgt
      exact ⟨m, rest, rfl, by simp [trim_if_over_budget, hgt]⟩
    · intro hle
      simp [trim_if_over_budget, hle]

/-- C4 witness: the trim evaluated over and under budget on a concrete
two-message history. -/
theorem trim_if_over_budget_spec_witness :
    (([⟨"user", "a"⟩, ⟨"assistant", "b"⟩] : List Message) ≠ []) ∧
    ((8000 > 7500 → ∃ m rest,
        ([⟨"user", "a"⟩, ⟨"assistant", "b"⟩] : List Message) = m :: rest ∧
        trim_if_over_budget 8000 7500 [⟨"user", "a"⟩, ⟨"assistant", "b"⟩] = rest) ∧
     (¬ 8000 > 7500 →
        trim_if_over_budget 8000 7500 [⟨"user", "a"⟩, ⟨"assistant", "b"⟩] =
          [⟨"user", "a"⟩, ⟨"assistant", "b"⟩])) :=
  ⟨by decide,
    trim_if_over_budget_spec 8000 7500 [⟨"user", "a"⟩, ⟨"assistant", "b"⟩] (by decide)⟩

/-- C5: over one full main-loop iteration the persisted history changes
only by appends at the end and at most one removal at index 0: the new
history is the old history with at most its first element dropped, followed
only by the freshly appended user and assistant messages. Surviving
entries keep their order and contents. -/
theorem history_mutation_shape (u r : String) (t : Nat) (h : List Message) :
    ∃ d app, d ≤ 1 ∧
      updateHistory (h ++ [Message.mk "user" u]) r t = h.drop d ++ app ∧
      ∀ m ∈ app, m = Message.mk "user" u ∨ m = Message.mk "assistant" r := by
  by_cases ht : t > MODEL_MAX_TOKENS
  · cases h with
    | nil =>
      refine ⟨0, [Message.mk "assistant" r], by omega, ?_, ?_⟩
      · simp [updateHistory, trim_if_over_budget, ht]
      · intro m hm
        simp only [List.mem_singleton] at hm
        exact Or.inr hm
    | cons c cs =>
      refine ⟨1, [Message.mk "user" u, Message.mk "assistant" r], le_refl 1, ?_, ?_⟩
      · simp [updateHistory, trim_if_over_budget, ht]
      · intro m hm
        simp only [List.mem_cons, List.mem_singleton, List.not_mem_nil, or_false] at hm
        exact hm
  · refine ⟨0, [Message.mk "user" u, Message.mk "assistant" r], by omega, ?_, ?_⟩
    · simp [updateHistory, trim_if_over_budget, ht]
    · intro m hm
      simp only [List.mem_cons, List.mem_singleton, List.not_mem_nil, or_false] at hm
      exact hm

/-- C6: building a request envelope leaves the persisted history intact:
the envelope carries the history verbatim as its prefix and only adds one
trailing message. Moreover every envelope the retry loop passes to the
remote client is a front-drop of the envelope built for the turn, so the
oldest-message removal performed during a context-length retry affects
only the envelope value, never the history. -/
theorem build_request_frame :
    (∀ (h : List Message) (templ scratch : String),
        (composeEnvelope h templ scratch).take h.length = h ∧
        (composeEnvelope h templ scratch).length = h.length + 1) ∧
    (∀ (client : Nat → List Message → CallResult) (h : List Message)
        (templ scratch : String) (c : List Message),
        c ∈ (do_chatbot_conversation_exchange client
              (composeEnvelope h templ scratch)).calls →
        ∃ k, c = (composeEnvelope h templ scratch).drop k) := by
  constructor
  · intro h templ scratch
    constructor
    · simp [composeEnvelope, List.take_left]
    · simp [composeEnvelope]
  · intro client h templ scratch c hc
    exact exchangeLoop_calls_are_drops client max_retry 0 _ c hc

/-- C6 witness: the frame property evaluated on a concrete one-message
history with the always-failing client, at the first attempted envelope. -/
theorem build_request_frame_witness :
    (composeEnvelope [⟨"user", "hi"⟩] "T" "S") ∈
      (do_chatbot_conversation_exchange alwaysFail
        (composeEnvelope [⟨"user", "hi"⟩] "T" "S")).calls ∧
    ∃ k, (composeEnvelope [⟨"user", "hi"⟩] "T" "S") =
      (composeEnvelope [⟨"user", "hi"⟩] "T" "S").drop k :=
  ⟨by decide,
    build_request_frame.2 alwaysFail [⟨"user", "hi"⟩] "T" "S" _ (by decide)⟩

/-- C7: the envelope sent to the remote client is a copy of the history
followed by exactly one trailing system message whose content is the
system-prompt template with the `<<CODE>>` placeholder replaced by the
scratchpad contents; in particular, with history [user "hi"], template
"You are helpful. <<CODE>>" and an empty scratchpad, the envelope is
[user "hi", system "You are helpful. "]. -/
theorem envelope_shape :
    composeEnvelope [⟨"user", "hi"⟩] "You are helpful. <<CODE>>" "" =
      [⟨"user", "hi"⟩, ⟨"system", "You are helpful. "⟩] ∧
    ∀ (h : List Message) (templ scratch : String),
      composeEnvelope h templ scratch =
        h ++ [⟨"system", String.mk (substCodeToken scratch.data templ.data)⟩] :=
  ⟨by decide, fun _ _ _ => rfl⟩

/-- C8: entering the sentinel "END" at the main prompt produces process
exit status 0 for every possible remote client (so no network call can
influence or be caused by that turn), and a turn whose exchange exhausts
the retry ceiling produces process exit status 1. -/
theorem sentinel_and_fatal_exit_codes :
    (∀ (client : Nat → List Message → CallResult) (h : List Message)
        (templ scratch : String) (extraLines : List String),
        mainTurn client h templ scratch "END" extraLines = .exitCode 0) ∧
    (∀ (h : List Message) (templ scratch : String) (extraLines : List String),
        mainTurn alwaysFail h templ scratch "hello" extraLines = .exitCode 1) :=
  ⟨fun _ _ _ _ _ => rfl, fun _ _ _ _ => rfl⟩

/-- C9: entering the scratchpad keyword "M" at the main prompt followed by
the lines "foo", "bar" and "END" rewrites the scratchpad file with exactly
"foo\nbar", and no completion request is issued for that turn: the result
is the same for every remote client and is a scratchpad write, not an
exchange. -/
theorem scratchpad_update_run
    (client : Nat → List Message → CallResult) (h : List Message)
    (templ scratch : String) :
    mainTurn client h templ scratch "M" ["foo", "bar", "END"] =
      .scratchpadWrite "foo\nbar" := by
  rfl

/-- C10: for every multi-line scratchpad entry the saved text is the lines
joined with newlines, then stripped of every leading and trailing
character from the set {E, N, D}, then stripped of surrounding whitespace
(`text.strip("END").strip()`); in particular the entry whose collected
content is the single line "DONE" is saved as "O", not as "DONE". -/
theorem scratchpad_strip_behavior :
    (∀ (client : Nat → List Message → CallResult) (h : List Message)
        (templ scratch : String) (lines : List String),
        mainTurn client h templ scratch "M" lines =
          .scratchpadWrite (pyStripWs (pyStrip
            (String.intercalate "\n" (lines.takeWhile (fun line => line != "END")))
            "END"))) ∧
    mainTurn alwaysFail [] "" "" "M" ["DONE", "END"] = .scratchpadWrite "O" ∧
    mainTurn alwaysFail [] "" "" "M" ["DONE", "END"] ≠
      .scratchpadWrite (String.intercalate "\n" ["DONE"]) :=
  ⟨fun _ _ _ _ _ => rfl, by decide, by decide⟩
